import Mathlib

/-
Verification development for the lab2-qt20-db application (C++17 / Qt5 / SQLite).

The embedding models, from the sources:
 * `app/src/mainwindow.cpp` — the menu-triggered database slots of `MainWindow`
   (`onCreateConnection`, `onDropTable`, `onCreateTable`, `onInsertInto`,
   `onPrintTable`, `onInitTableModel`, `onInsertRow`, `onRemoveRow`) as pure
   state transformers over an `AppState`; each slot returns the new state, the
   debug-log lines it emits (modeled up to their fixed prefix, without the
   dynamic `lastError().text()` suffix), and the list of SQL statements it
   passed to `QSqlQuery::exec`, each tagged with whether the exec succeeded.
 * `mydelegate.h` / `mydelegate.cpp` (the final version of the delegate, the
   one with `kPenColorColumn = 1`, `kPenStyleColumn = 2` and the `paint`
   override; it is the version the tests `test_mydelegate.cpp` exercise and
   the one consistent with `onInitTableModel`, which installs the delegate on
   view columns 1 and 2 after the id column shift) — `createEditor`,
   `setEditorData`, `setModelData`, `editorEvent` and `paint`.

External failures (SQLite errors, `open()` failures, a cancelled color
dialog) are inputs: an oracle `List Bool` consumed one entry per `exec`
(an exhausted oracle means success), a `Bool` for `open()`/`select()`, and
an `Option String` for the color returned by `QColorDialog::getColor`
(`none` models an invalid color, i.e. a cancelled dialog).
-/

set_option maxRecDepth 4000

namespace Lab2

/-- A value bound to a prepared SQL statement (`QVariant` as used here:
strings and ints only). -/
inductive SqlValue
  | str (v : String)
  | int (v : Int)
deriving DecidableEq

/-- One SQL statement as handed to `QSqlQuery`: its text and the bound
parameter values (in placeholder order; empty for a non-prepared `exec`). -/
structure Stmt where
  text : String
  binds : List SqlValue
deriving DecidableEq

/-- A statement is parameterized when it carries bound placeholder values
(`prepare` + `bindValue`/`addBindValue`); a plain `exec` of literal SQL has
no binds. -/
def Stmt.parameterized (st : Stmt) : Bool :=
  !st.binds.isEmpty

/-- Record of one `exec` call: the statement and whether the exec succeeded. -/
structure Issued where
  stmt : Stmt
  ok : Bool
deriving DecidableEq

/-- A row of the `rectangle` table. -/
structure Row where
  rid : Int
  pencolor : String
  penstyle : Int
  penwidth : Int
  left : Int
  top : Int
  width : Int
  height : Int
deriving DecidableEq

/-- Modelled from the spec: `myrect.h` is not among the sources, only its
callers are. Field names and the constructor argument order
(color, style, width, left, top, width, height) are read off the
`MyRect(QColor(...), Qt::..., ...)` construction sites in
`MainWindow::onInsertInto` and the README ("цвет, стиль, толщина,
координаты, размеры"). `penColor` holds `QColor::name()`, the
"#rrggbb" string that is bound to the `pencolor` column; `penStyle` is the
numeric value of the `Qt::PenStyle` enum. -/
structure MyRect where
  penColor : String
  penStyle : Int
  penWidth : Int
  left : Int
  top : Int
  width : Int
  height : Int
deriving DecidableEq

/-- The row a `MyRect` becomes when inserted with AUTOINCREMENT id `n`. -/
def MyRect.toRow (r : MyRect) (n : Int) : Row :=
  ⟨n, r.penColor, r.penStyle, r.penWidth, r.left, r.top, r.width, r.height⟩

/-- The bound values of one parameterized rectangle insert, in the column
order `(pencolor, penstyle, penwidth, left, top, width, height)` used by all
prepared INSERT statements of `onInsertInto`. -/
def MyRect.binds (r : MyRect) : List SqlValue :=
  [.str r.penColor, .int r.penStyle, .int r.penWidth,
   .int r.left, .int r.top, .int r.width, .int r.height]

/-- The `rectangle` table: AUTOINCREMENT counter, schema, rows. -/
structure Table where
  nextId : Int
  columns : List (String × String)
  rows : List Row
deriving DecidableEq

/-- Insert one rectangle, consuming the AUTOINCREMENT id. -/
def Table.insert (t : Table) (r : MyRect) : Table :=
  { t with nextId := t.nextId + 1, rows := t.rows ++ [r.toRow t.nextId] }

/-- Insert a list of rectangles in order. -/
def Table.insertMany (t : Table) (rs : List MyRect) : Table :=
  rs.foldl Table.insert t

/-- The rows produced by inserting `rs` starting at AUTOINCREMENT id `n`. -/
def insertedRows (n : Int) : List MyRect → List Row
  | [] => []
  | r :: rs => r.toRow n :: insertedRows (n + 1) rs

/-- Observable state of the application: the `QSqlDatabase` connection
registry (list of registered connection names), the `m_db` member handle
(validity and open flag), the on-disk `rectangle` table (`none` when it does
not exist), and the `m_model` / `tableView` state touched by the Model slots. -/
structure AppState where
  registry : List String
  mdbValid : Bool
  mdbOpen : Bool
  table : Option Table
  modelInit : Bool
  modelTableName : Option String
  modelRows : Nat
  delegateCols : List Nat
  hiddenCols : List Nat
  currentRow : Option Nat
deriving DecidableEq

/-- Result of running one slot: new state, emitted debug-log lines, the SQL
statements passed to `exec` (with their outcomes), and the unconsumed part of
the failure oracle. -/
structure SlotResult where
  state : AppState
  log : List String
  issued : List Issued
  rest : List Bool
deriving DecidableEq

-- ------------------------- constants (mainwindow.h) -------------------------

/-- `MainWindow::kConnName_`. -/
def kConnName_ : String := "rectangles_conn"

/-- `MainWindow::kDbFile_`. -/
def kDbFile_ : String := "rectangle_data.sqlite"

/-- `MainWindow::kTable_`. -/
def kTable_ : String := "rectangle"

/-- The schema of the `rectangle` table, column by column, exactly as listed
in the CREATE TABLE statement of `MainWindow::onCreateTable`. -/
def rectangleColumns : List (String × String) :=
  [("id", "INTEGER PRIMARY KEY AUTOINCREMENT"),
   ("pencolor", "VARCHAR"),
   ("penstyle", "INTEGER"),
   ("penwidth", "INTEGER"),
   ("left", "INTEGER"),
   ("top", "INTEGER"),
   ("width", "INTEGER"),
   ("height", "INTEGER")]

/-- The literal SQL text of `onCreateTable` (the concatenation of the C++
string pieces). -/
def createTableSQL : String :=
  "CREATE TABLE rectangle (" ++
  " id INTEGER PRIMARY KEY AUTOINCREMENT," ++
  " pencolor VARCHAR," ++
  " penstyle INTEGER," ++
  " penwidth INTEGER," ++
  " left INTEGER," ++
  " top INTEGER," ++
  " width INTEGER," ++
  " height INTEGER" ++
  ");"

/-- The literal SQL text of `onDropTable`. -/
def dropTableSQL : String := "DROP TABLE rectangle;"

/-- The literal SQL text of the first (non-prepared) INSERT of
`onInsertInto`; the inserted values are part of the text. -/
def simpleInsertSQL : String :=
  "INSERT INTO rectangle (pencolor, penstyle, penwidth, left, top, width, height) " ++
  "VALUES ('#ff0000', 1, 3, 10, 20, 60, 60);"

/-- The prepared INSERT with named placeholders (technique 2 of
`onInsertInto`). -/
def namedInsertSQL : String :=
  "INSERT INTO rectangle (pencolor, penstyle, penwidth, left, top, width, height) " ++
  "VALUES (:pencolor, :penstyle, :penwidth, :left, :top, :width, :height)"

/-- The prepared INSERT with positional placeholders (techniques 3 and 4 of
`onInsertInto` share this text). -/
def positionalInsertSQL : String :=
  "INSERT INTO rectangle (pencolor, penstyle, penwidth, left, top, width, height) " ++
  "VALUES (?,?,?,?,?,?,?)"

/-- The literal SQL text of `onPrintTable`. -/
def selectSQL : String := "SELECT * FROM rectangle;"

/-- The failure messages of the four insert blocks of `onInsertInto`. -/
def insertFailMsgs : List String :=
  ["onInsertInto: simple INSERT failed",
   "onInsertInto: named bindValue failed",
   "onInsertInto: addBindValue failed",
   "onInsertInto: positional bindValue failed"]

/-- Every SQL text any BD slot can ever pass to `exec`. -/
def fixedSQLTexts : List String :=
  [createTableSQL, dropTableSQL, simpleInsertSQL, namedInsertSQL,
   positionalInsertSQL, selectSQL]

-- ------------------------- insert data (onInsertInto) -----------------------

/-- The rectangle whose values are hard-coded in the text of
`simpleInsertSQL` (technique 1). -/
def simpleRect : MyRect := ⟨"#ff0000", 1, 3, 10, 20, 60, 60⟩

/-- The `QVector<MyRect> rects` of `onInsertInto`; `Qt::SolidLine = 1`,
`Qt::DashLine = 2`, `Qt::DotLine = 3`. -/
def rects : List MyRect :=
  [⟨"#00ff00", 1, 2, 0, 0, 200, 100⟩,
   ⟨"#0000ff", 2, 1, 10, 20, 60, 60⟩,
   ⟨"#aaaaaa", 3, 4, 50, 70, 30, 90⟩]

/-- The statements issued by each of the four insert blocks of
`onInsertInto`, numbered 1-4 in source order: 1 is the plain
`exec(INSERT ... VALUES (...literals...))`, 2 is `prepare` + named
`bindValue`, 3 is `prepare` + `addBindValue`, 4 is `prepare` + positional
`bindValue`. -/
def insertTechniqueStmts : Nat → List Stmt
  | 1 => [⟨simpleInsertSQL, []⟩]
  | 2 => rects.map (fun r => ⟨namedInsertSQL, r.binds⟩)
  | 3 => rects.map (fun r => ⟨positionalInsertSQL, r.binds⟩)
  | 4 => rects.map (fun r => ⟨positionalInsertSQL, r.binds⟩)
  | _ => []

/-- The rectangle values each technique of `onInsertInto` inserts:
technique 1 inserts the single hard-coded row, techniques 2-4 each insert
the three `rects`. -/
def techniqueValueRows : Nat → List MyRect
  | 1 => [simpleRect]
  | 2 => rects
  | 3 => rects
  | 4 => rects
  | _ => []

-- ------------------------- guard helper (ensureDbOpen_) ---------------------

/-- `MainWindow::ensureDbOpen_`: the connection must be valid and open. -/
def ensureDbOpen (s : AppState) : Bool :=
  s.mdbValid && s.mdbOpen

/-- The diagnostic `ensureDbOpen_` prints when it fails. -/
def guardFailLog (caller : String) (s : AppState) : List String :=
  if s.mdbValid then [caller ++ ": DB is not open. Call BD -> Create connection."]
  else [caller ++ ": DB is not valid. Call BD -> Create connection."]

-- ------------------------- failure oracle -----------------------------------

/-- Outcome of the next `exec` according to the failure oracle (an
exhausted oracle means success). -/
def oHead (o : List Bool) : Bool := o.headD true

/-- The oracle after consuming one `exec`. -/
def oTail (o : List Bool) : List Bool := o.tail

-- ------------------------- BD slots -----------------------------------------

/-- The part of `onCreateConnection` after the registry lookup: validity
check, `setDatabaseName`, `open()`. `openOk` is whether `open()` succeeds. -/
def connectPhase (openOk : Bool) (s : AppState) (lg : List String) : SlotResult :=
  if s.mdbValid = false then
    { state := s, log := lg ++ ["onCreateConnection: invalid connection"],
      issued := [], rest := [] }
  else if openOk then
    { state := { s with mdbOpen := true },
      log := lg ++ ["onCreateConnection: OK. db= " ++ kDbFile_],
      issued := [], rest := [] }
  else
    { state := { s with mdbOpen := false },
      log := lg ++ ["onCreateConnection: open() failed"],
      issued := [], rest := [] }

/-- `MainWindow::onCreateConnection`: reuse the registered connection named
`kConnName_` if `QSqlDatabase::contains` it, otherwise `addDatabase` a new
one under that name (the QSQLITE driver is linked in, so the resulting
handle is valid); then open it. -/
def onCreateConnection (openOk : Bool) (s : AppState) : SlotResult :=
  if s.registry.contains kConnName_ then
    connectPhase openOk { s with mdbValid := true }
      ["onCreateConnection: reuse connection " ++ kConnName_]
  else
    connectPhase openOk
      { s with registry := s.registry ++ [kConnName_], mdbValid := true }
      ["onCreateConnection: addDatabase QSQLITE conn= " ++ kConnName_]

/-- `MainWindow::onDropTable`. -/
def onDropTable (o : List Bool) (s : AppState) : SlotResult :=
  if ensureDbOpen s then
    match s.table with
    | none =>
      { state := s, log := ["onDropTable: table does not exist"],
        issued := [], rest := o }
    | some _ =>
      if oHead o then
        { state := { s with table := none }, log := ["onDropTable: OK"],
          issued := [⟨⟨dropTableSQL, []⟩, true⟩], rest := oTail o }
      else
        { state := s, log := ["onDropTable: DROP TABLE failed"],
          issued := [⟨⟨dropTableSQL, []⟩, false⟩], rest := oTail o }
  else
    { state := s, log := guardFailLog "onDropTable" s, issued := [], rest := o }

/-- The CREATE TABLE exec of `onCreateTable`; SQLite rejects a CREATE for an
already-existing table, so success requires the table to be absent (and the
oracle to allow it). `accLog` / `accIssued` carry what the slot produced
before reaching the exec. -/
def execCreatePhase (s : AppState) (accLog : List String)
    (accIssued : List Issued) (o : List Bool) : SlotResult :=
  if oHead o && s.table.isNone then
    { state := { s with table := some ⟨1, rectangleColumns, []⟩ },
      log := accLog ++ ["onCreateTable: OK"],
      issued := accIssued ++ [⟨⟨createTableSQL, []⟩, true⟩],
      rest := oTail o }
  else
    { state := s,
      log := accLog ++ ["onCreateTable: CREATE TABLE failed"],
      issued := accIssued ++ [⟨⟨createTableSQL, []⟩, false⟩],
      rest := oTail o }

/-- `MainWindow::onCreateTable`: guard; if the table already exists, drop it
via `onDropTable` (whose failure is NOT checked — only `ensureDbOpen_` is
re-checked); then exec the fixed CREATE TABLE statement. -/
def onCreateTable (o : List Bool) (s : AppState) : SlotResult :=
  if ensureDbOpen s then
    if s.table.isSome then
      let d := onDropTable o s
      if ensureDbOpen d.state then
        execCreatePhase d.state
          (["onCreateTable: table exists, dropping first..."] ++ d.log)
          d.issued d.rest
      else
        { state := d.state,
          log := ["onCreateTable: table exists, dropping first..."] ++ d.log ++
                 guardFailLog "onCreateTable(after drop)" d.state,
          issued := d.issued, rest := d.rest }
    else
      execCreatePhase s [] [] o
  else
    { state := s, log := guardFailLog "onCreateTable" s, issued := [], rest := o }

/-- Result of a run of consecutive execs inside `onInsertInto`. -/
structure RunRes where
  ok : Bool
  state : AppState
  issued : List Issued
  rest : List Bool
deriving DecidableEq

/-- One INSERT exec of the statement `st` inserting the rectangle `r`: it
succeeds when the oracle allows it and the table exists, and then appends
the row under the next AUTOINCREMENT id. (For the plain `exec` of
technique 1 the statement has no binds — the values are in its text; the
prepared techniques pass the row's bound values.) -/
def execInsert (st : Stmt) (r : MyRect) (s : AppState) (o : List Bool) :
    RunRes :=
  let ok := oHead o && s.table.isSome
  { ok := ok,
    state := if ok then { s with table := s.table.map (fun t => t.insert r) } else s,
    issued := [⟨st, ok⟩],
    rest := oTail o }

/-- One `for (const auto& r : rects)` loop of `onInsertInto`: exec the
prepared statement once per rectangle, stopping at the first failure. -/
def runInserts (stext : String) (rs : List MyRect) (s : AppState)
    (o : List Bool) : RunRes :=
  match rs with
  | [] => ⟨true, s, [], o⟩
  | r :: rest =>
    let e := execInsert ⟨stext, r.binds⟩ r s o
    if e.ok then
      let k := runInserts stext rest e.state e.rest
      ⟨k.ok, k.state, e.issued ++ k.issued, k.rest⟩
    else e

/-- `MainWindow::onInsertInto`: guard, table check, then the four insert
blocks in order; any failed exec logs the block's failure message and
returns at once. -/
def onInsertInto (o : List Bool) (s : AppState) : SlotResult :=
  if ensureDbOpen s then
    if s.table.isSome then
      let e1 := execInsert ⟨simpleInsertSQL, []⟩ simpleRect s o
      if e1.ok then
        let k2 := runInserts namedInsertSQL rects e1.state e1.rest
        if k2.ok then
          let k3 := runInserts positionalInsertSQL rects k2.state k2.rest
          if k3.ok then
            let k4 := runInserts positionalInsertSQL rects k3.state k3.rest
            if k4.ok then
              { state := k4.state,
                log := ["onInsertInto: simple INSERT OK",
                        "onInsertInto: named bindValue OK",
                        "onInsertInto: addBindValue OK",
                        "onInsertInto: positional bindValue OK",
                        "onInsertInto: DONE"],
                issued := e1.issued ++ k2.issued ++ k3.issued ++ k4.issued,
                rest := k4.rest }
            else
              { state := k4.state,
                log := ["onInsertInto: simple INSERT OK",
                        "onInsertInto: named bindValue OK",
                        "onInsertInto: addBindValue OK",
                        "onInsertInto: positional bindValue failed"],
                issued := e1.issued ++ k2.issued ++ k3.issued ++ k4.issued,
                rest := k4.rest }
          else
            { state := k3.state,
              log := ["onInsertInto: simple INSERT OK",
                      "onInsertInto: named bindValue OK",
                      "onInsertInto: addBindValue failed"],
              issued := e1.issued ++ k2.issued ++ k3.issued,
              rest := k3.rest }
        else
          { state := k2.state,
            log := ["onInsertInto: simple INSERT OK",
                    "onInsertInto: named bindValue failed"],
            issued := e1.issued ++ k2.issued,
            rest := k2.rest }
      else
        { state := e1.state, log := ["onInsertInto: simple INSERT failed"],
          issued := e1.issued, rest := e1.rest }
    else
      { state := s,
        log := ["onInsertInto: table does not exist. Call BD -> Create table first."],
        issued := [], rest := o }
  else
    { state := s, log := guardFailLog "onInsertInto" s, issued := [], rest := o }

/-- One line of `onPrintTable`'s row dump. -/
def rowText (r : Row) : String :=
  "id= " ++ toString r.rid ++ " color= " ++ r.pencolor ++
  " style= " ++ toString r.penstyle ++ " pW= " ++ toString r.penwidth ++
  " rect=( " ++ toString r.left ++ " , " ++ toString r.top ++
  " , " ++ toString r.width ++ " , " ++ toString r.height ++ " )"

/-- `MainWindow::onPrintTable`: guard, table check, one SELECT, then dump
every row to the debug log. -/
def onPrintTable (o : List Bool) (s : AppState) : SlotResult :=
  if ensureDbOpen s then
    match s.table with
    | none =>
      { state := s,
        log := ["onPrintTable: table does not exist. Call BD -> Create table first."],
        issued := [], rest := o }
    | some t =>
      if oHead o then
        { state := s, log := ["onPrintTable: rows:"] ++ t.rows.map rowText,
          issued := [⟨⟨selectSQL, []⟩, true⟩], rest := oTail o }
      else
        { state := s, log := ["onPrintTable: SELECT failed"],
          issued := [⟨⟨selectSQL, []⟩, false⟩], rest := oTail o }
  else
    { state := s, log := guardFailLog "onPrintTable" s, issued := [], rest := o }

-- ------------------------- Model slots --------------------------------------

/-- `MainWindow::onInitTableModel`: guard, table check, lazily create the
`QSqlTableModel`, `setTable`, `select()` (success given by `selectOk`), then
hide the id column and install a `MyDelegate` on view columns 1 and 2. -/
def onInitTableModel (selectOk : Bool) (s : AppState) : SlotResult :=
  if ensureDbOpen s then
    match s.table with
    | none =>
      { state := s,
        log := ["onInitTableModel: table does not exist. Call BD -> Create table first."],
        issued := [], rest := [] }
    | some t =>
      let s1 := { s with modelInit := true, modelTableName := some kTable_ }
      if selectOk then
        let s2 := { s1 with modelRows := t.rows.length, hiddenCols := [0], delegateCols := [1, 2] }
        { state := s2,
          log := ["onInitTableModel: loaded rows= " ++ toString t.rows.length],
          issued := [], rest := [] }
      else
        { state := s1, log := ["onInitTableModel: select() failed"],
          issued := [], rest := [] }
  else
    { state := s, log := guardFailLog "onInitTableModel" s, issued := [], rest := [] }

/-- `MainWindow::onInsertRow`: guard, model check, `insertRows(rowCount, 1)`
(success given by `insertOk`), select the new row. -/
def onInsertRow (insertOk : Bool) (s : AppState) : SlotResult :=
  if ensureDbOpen s then
    if s.modelInit then
      if insertOk then
        let s2 := { s with modelRows := s.modelRows + 1, currentRow := some s.modelRows }
        { state := s2,
          log := ["onInsertRow: inserted row= " ++ toString s.modelRows],
          issued := [], rest := [] }
      else
        { state := s, log := ["onInsertRow: insertRows failed"],
          issued := [], rest := [] }
    else
      { state := s,
        log := ["onInsertRow: model not initialized. Use Model -> Table model first."],
        issued := [], rest := [] }
  else
    { state := s, log := guardFailLog "onInsertRow" s, issued := [], rest := [] }

/-- `MainWindow::onRemoveRow`: guard, model check, current-index check, then
`removeRows(row, 1)` (success given by `removeOk`; with the `OnRowChange`
strategy the deletion reaches the database). -/
def onRemoveRow (removeOk : Bool) (s : AppState) : SlotResult :=
  if ensureDbOpen s then
    if s.modelInit then
      match s.currentRow with
      | none =>
        { state := s, log := ["onRemoveRow: no current row selected"],
          issued := [], rest := [] }
      | some row =>
        if removeOk then
          let t2 := s.table.map (fun t => { t with rows := t.rows.eraseIdx row })
          let s2 := { s with modelRows := s.modelRows - 1, table := t2 }
          { state := s2,
            log := ["onRemoveRow: removed row= " ++ toString row],
            issued := [], rest := [] }
        else
          { state := s, log := ["onRemoveRow: removeRows failed"],
            issued := [], rest := [] }
    else
      { state := s,
        log := ["onRemoveRow: model not initialized. Use Model -> Table model first."],
        issued := [], rest := [] }
  else
    { state := s, log := guardFailLog "onRemoveRow" s, issued := [], rest := [] }

-- ------------------------- MyDelegate ---------------------------------------

/-- A cell value of an item model (`QVariant` as the delegate uses it). -/
inductive CellVal
  | str (v : String)
  | int (v : Int)
  | color (v : String)
  | empty
deriving DecidableEq

/-- `QVariant::toInt` restricted to the values the delegate reads: the
pen-style cell holds an int under `Qt::EditRole`; anything else converts
to 0. -/
def CellVal.toInt : CellVal → Int
  | .int v => v
  | _ => 0

/-- A minimal item model: a grid of cells (row-major). -/
structure ItemModel where
  cells : List (List CellVal)
deriving DecidableEq

/-- `model->data(index, Qt::EditRole)`. -/
def ItemModel.data (m : ItemModel) (row col : Nat) : CellVal :=
  (m.cells.getD row []).getD col .empty

/-- `model->setData(index, v, Qt::EditRole)`. -/
def ItemModel.setData (m : ItemModel) (row col : Nat) (v : CellVal) : ItemModel :=
  ⟨m.cells.set row ((m.cells.getD row []).set col v)⟩

/-- `MyDelegate::kPenColorColumn`: the `pencolor` column of the view
(id = 0, pencolor = 1). -/
def kPenColorColumn : Nat := 1

/-- `MyDelegate::kPenStyleColumn`: the `penstyle` column of the view
(id = 0, pencolor = 1, penstyle = 2). -/
def kPenStyleColumn : Nat := 2

/-- The items `MyDelegate::fillPenStyleCombo` adds: visible text plus the
numeric `Qt::PenStyle` value stored as userData. -/
def penStyleComboItems : List (String × Int) :=
  [("Qt::NoPen", 0),
   ("Qt::SolidLine", 1),
   ("Qt::DashLine", 2),
   ("Qt::DotLine", 3),
   ("Qt::DashDotLine", 4),
   ("Qt::DashDotDotLine", 5)]

/-- `penStyleToText` of `mydelegate.cpp`: the display name of a stored
pen-style value, with the `"Style(N)"` fallback of the `default:` branch. -/
def penStyleToText (v : Int) : String :=
  if v = 0 then "NoPen"
  else if v = 1 then "SolidLine"
  else if v = 2 then "DashLine"
  else if v = 3 then "DotLine"
  else if v = 4 then "DashDotLine"
  else if v = 5 then "DashDotDotLine"
  else "Style(" ++ toString v ++ ")"

/-- Editor widget returned by `createEditor`: either the base-class default
editor or the pen-style `QComboBox`. -/
inductive Editor
  | base
  | combo (items : List (String × Int))
deriving DecidableEq

/-- `MyDelegate::createEditor`: a `QComboBox` filled with the pen styles for
the pen-style column, the base-class editor for an invalid index or any
other column. -/
def createEditor (indexValid : Bool) (col : Nat) : Editor :=
  if indexValid = false ∨ col ≠ kPenStyleColumn then Editor.base
  else Editor.combo penStyleComboItems

/-- `QComboBox::findData`: index of the first item whose userData is `v`,
or -1. -/
def comboFindData (items : List (String × Int)) (v : Int) : Int :=
  match items.findIdx? (fun p => p.2 = v) with
  | some i => (i : Int)
  | none => -1

/-- `MyDelegate::setEditorData`: for the pen-style column, the combo index
selected from the model value (falling back to 0 when `findData` misses);
`none` models deferring to the base class. -/
def setEditorData (indexValid : Bool) (row col : Nat) (m : ItemModel) :
    Option Nat :=
  if indexValid = false ∨ col ≠ kPenStyleColumn then none
  else
    let pos := comboFindData penStyleComboItems ((m.data row col).toInt)
    some (if 0 ≤ pos then pos.toNat else 0)

/-- `MyDelegate::setModelData`: for the pen-style column, write the current
combo item's userData into the model; for other columns the base class
writes the default editor's value (not modeled further — no claim touches
that path), represented as leaving the model unchanged. -/
def setModelData (indexValid : Bool) (row col comboIndex : Nat)
    (m : ItemModel) : ItemModel :=
  if indexValid = false ∨ col ≠ kPenStyleColumn then m
  else m.setData row col (.int (penStyleComboItems.getD comboIndex ("", 0)).2)

/-- The kind of a `QEvent` as far as `editorEvent` inspects it. -/
inductive EventType
  | mouseDblClick
  | mousePress
  | other
deriving DecidableEq

/-- The mouse button of the event. -/
inductive MouseButton
  | leftB
  | rightB
deriving DecidableEq

/-- `MyDelegate::editorEvent`: for a left-button double-click on a valid
pen-color cell, open `QColorDialog::getColor` (result in `dialogColor`;
`none` is an invalid color, i.e. a cancelled dialog) and write a valid
chosen color to the model; every other case defers to the base class, whose
`editorEvent` returns `false` here (no edit trigger is consumed — the
behavior the tests in `test_mydelegate.cpp` observe). -/
def editorEvent (modelPresent indexValid : Bool) (row col : Nat)
    (ety : EventType) (btn : MouseButton) (dialogColor : Option String)
    (m : ItemModel) : Bool × ItemModel :=
  if indexValid = false ∨ modelPresent = false ∨ col ≠ kPenColorColumn then
    (false, m)
  else if ety ≠ EventType.mouseDblClick then (false, m)
  else if btn ≠ MouseButton.leftB then (false, m)
  else
    match dialogColor with
    | none => (true, m)
    | some c => (true, m.setData row col (.color c))

/-- What `MyDelegate::paint` draws for a cell. -/
inductive PaintAction
  | comboText (text : String)
  | base
deriving DecidableEq

/-- `MyDelegate::paint`: for the pen-style column, draw a combo-box frame
with the textual style name read from the model's `Qt::EditRole` value; for
every other column, the base-class painting. -/
def paint (m : ItemModel) (row col : Nat) : PaintAction :=
  if col = kPenStyleColumn then
    PaintAction.comboText (penStyleToText ((m.data row col).toInt))
  else PaintAction.base

/-- The member functions the `MyDelegate` class declaration marks
`override` (mydelegate.h, final version): `createEditor`, `setEditorData`,
`setModelData`, `editorEvent` and `paint`. -/
def delegateOverrides : List String :=
  ["createEditor", "setEditorData", "setModelData", "editorEvent", "paint"]

-- ------------------------- concrete states for witnesses --------------------

/-- The application state right after program start: nothing registered,
no handle, no table, no model. -/
def initState : AppState :=
  { registry := [], mdbValid := false, mdbOpen := false, table := none,
    modelInit := false, modelTableName := none, modelRows := 0,
    delegateCols := [], hiddenCols := [], currentRow := none }

/-- A state with an open registered connection and an existing empty
`rectangle` table. -/
def readyState : AppState :=
  { registry := [kConnName_], mdbValid := true, mdbOpen := true,
    table := some ⟨1, rectangleColumns, []⟩,
    modelInit := false, modelTableName := none, modelRows := 0,
    delegateCols := [], hiddenCols := [], currentRow := none }

/-- A state whose connection is registered and valid but closed. -/
def closedState : AppState :=
  { registry := [kConnName_], mdbValid := true, mdbOpen := false,
    table := some ⟨1, rectangleColumns, []⟩,
    modelInit := false, modelTableName := none, modelRows := 0,
    delegateCols := [], hiddenCols := [], currentRow := none }

/-- A one-row item model shaped like the delegate tests' fixture:
id, pencolor, penstyle. -/
def m0 : ItemModel :=
  ⟨[[CellVal.int 123, CellVal.color "#ff0000", CellVal.int 1]]⟩

-- ------------------------- helper lemmas ------------------------------------

/-- `insertMany` in closed form: it advances the AUTOINCREMENT counter by
the number of inserted rectangles, keeps the schema, and appends the rows
with consecutive ids. -/
lemma Table.insertMany_eq :
    ∀ (rs : List MyRect) (t : Table),
      Table.insertMany t rs =
        ⟨t.nextId + rs.length, t.columns, t.rows ++ insertedRows t.nextId rs⟩ := by
  intro rs
  induction rs with
  | nil => intro t; simp [Table.insertMany, insertedRows]
  | cons r rest ih =>
    intro t
    have h := ih (t.insert r)
    simp only [Table.insertMany, List.foldl_cons] at h ⊢
    rw [h]
    simp [Table.insert, insertedRows, List.append_assoc]
    omega

/-- Only the last can fail: every issued statement other than the final one
succeeded. -/
def onlyLastFails (l : List Issued) : Prop :=
  ∀ e ∈ l.dropLast, e.ok = true

/-- With an exhausted (all-success) oracle and an existing table, a
`runInserts` loop succeeds, issues one successful statement per rectangle,
and inserts all the rectangles. -/
lemma runInserts_nil_oracle (stext : String) :
    ∀ (rs : List MyRect) (s : AppState) (t : Table), s.table = some t →
      runInserts stext rs s [] =
        ⟨true, { s with table := some (Table.insertMany t rs) },
          rs.map (fun r => ⟨⟨stext, r.binds⟩, true⟩), []⟩ := by
  intro rs
  induction rs with
  | nil =>
    intro s t h
    simp only [runInserts, Table.insertMany, List.foldl_nil, List.map_nil]
    cases s
    simp_all
  | cons r rest ih =>
    intro s t h
    have hok : (execInsert ⟨stext, r.binds⟩ r s []).ok = true := by
      simp [execInsert, oHead, h]
    have hstate : (execInsert ⟨stext, r.binds⟩ r s []).state =
        { s with table := some (t.insert r) } := by
      simp [execInsert, oHead, h]
    have hrest : (execInsert ⟨stext, r.binds⟩ r s []).rest = [] := by
      simp [execInsert, oTail]
    have hissued : (execInsert ⟨stext, r.binds⟩ r s []).issued =
        [⟨⟨stext, r.binds⟩, true⟩] := by
      simp [execInsert, oHead, h]
    have ihx := ih { s with table := some (t.insert r) } (t.insert r) rfl
    simp only [runInserts, hok, if_pos, hstate, hrest, hissued, ihx]
    simp [Table.insertMany, List.foldl_cons]

/-- Every statement a `runInserts` loop issues carries the prepared text it
was given. -/
lemma runInserts_text (stext : String) :
    ∀ (rs : List MyRect) (s : AppState) (o : List Bool),
      ∀ e ∈ (runInserts stext rs s o).issued, e.stmt.text = stext := by
  intro rs
  induction rs with
  | nil => intro s o e he; simp [runInserts] at he
  | cons r rest ih =>
    intro s o e he
    simp only [runInserts] at he
    by_cases hok : (execInsert ⟨stext, r.binds⟩ r s o).ok = true
    · rw [if_pos hok] at he
      simp only [List.mem_append] at he
      rcases he with he | he
      · simp [execInsert] at he
        subst he; rfl
      · exact ih _ _ e he
    · rw [if_neg hok] at he
      simp [execInsert] at he
      subst he; rfl

/-- A failing `runInserts` loop issued the failing statement last: the
issued list splits into successful statements followed by one failure. -/
lemma runInserts_fail_split (stext : String) :
    ∀ (rs : List MyRect) (s : AppState) (o : List Bool),
      (runInserts stext rs s o).ok = false →
      ∃ l e, (runInserts stext rs s o).issued = l ++ [e] ∧ e.ok = false ∧
        ∀ x ∈ l, x.ok = true := by
  intro rs
  induction rs with
  | nil => intro s o h; simp [runInserts] at h
  | cons r rest ih =>
    intro s o h
    simp only [runInserts] at h ⊢
    by_cases hok : (execInsert ⟨stext, r.binds⟩ r s o).ok = true
    · rw [if_pos hok] at h ⊢
      simp only at h
      obtain ⟨l, e, hsplit, hef, hl⟩ := ih _ _ h
      refine ⟨(execInsert ⟨stext, r.binds⟩ r s o).issued ++ l, e, ?_, hef, ?_⟩
      · simp [hsplit, List.append_assoc]
      · intro x hx
        simp only [List.mem_append] at hx
        rcases hx with hx | hx
        · simp [execInsert] at hx ⊢
          rw [hx]
          simpa [execInsert] using hok
        · exact hl x hx
    · rw [if_neg hok] at h ⊢
      refine ⟨[], ⟨⟨stext, r.binds⟩, (execInsert ⟨stext, r.binds⟩ r s o).ok⟩, ?_, ?_, by simp⟩
      · simp [execInsert]
      · simpa using hok

/-- A successful `runInserts` loop issued only successful statements. -/
lemma runInserts_ok_all (stext : String) :
    ∀ (rs : List MyRect) (s : AppState) (o : List Bool),
      (runInserts stext rs s o).ok = true →
      ∀ e ∈ (runInserts stext rs s o).issued, e.ok = true := by
  intro rs
  induction rs with
  | nil => intro s o _ e he; simp [runInserts] at he
  | cons r rest ih =>
    intro s o h e he
    simp only [runInserts] at h he
    by_cases hok : (execInsert ⟨stext, r.binds⟩ r s o).ok = true
    · rw [if_pos hok] at h he
      simp only [List.mem_append] at he
      rcases he with he | he
      · simp [execInsert] at he ⊢
        rw [he]
        simpa [execInsert] using hok
      · exact ih _ _ h e he
    · rw [if_neg hok] at h
      exact absurd h (by simpa using hok)

/-- `dropLast` of a list ending in a known element. -/
lemma dropLast_append_single {α : Type} (l : List α) (x : α) :
    (l ++ [x]).dropLast = l := by
  simp

/-- Characterization of a successful `onCreateTable` run: the success
message appears in the log only when the CREATE exec succeeded, in which
case the table was (re)created empty with the fixed schema; when a table
pre-existed, the run consists of the successful `onDropTable` statement
followed by the successful CREATE. -/
lemma createTable_ok_cases (o : List Bool) (s : AppState)
    (h : "onCreateTable: OK" ∈ (onCreateTable o s).log) :
    (onCreateTable o s).state.table = some ⟨1, rectangleColumns, []⟩ ∧
    ((s.table = none ∧
        (onCreateTable o s).issued = [⟨⟨createTableSQL, []⟩, true⟩]) ∨
     (s.table.isSome = true ∧
        (onCreateTable o s).issued =
          (onDropTable o s).issued ++ [⟨⟨createTableSQL, []⟩, true⟩] ∧
        (onDropTable o s).issued = [⟨⟨dropTableSQL, []⟩, true⟩] ∧
        (onDropTable o s).state.table = none)) := by
  by_cases hg : ensureDbOpen s = true
  · rcases ht : s.table with _ | t
    · -- no pre-existing table: straight to the CREATE exec
      by_cases hb : oHead o = true
      · have hres : onCreateTable o s =
            { state := { s with table := some ⟨1, rectangleColumns, []⟩ },
              log := ["onCreateTable: OK"],
              issued := [⟨⟨createTableSQL, []⟩, true⟩], rest := oTail o } := by
          simp [onCreateTable, execCreatePhase, hg, ht, hb]
        rw [hres]
        exact ⟨rfl, Or.inl ⟨rfl, rfl⟩⟩
      · have hres : onCreateTable o s =
            { state := s, log := ["onCreateTable: CREATE TABLE failed"],
              issued := [⟨⟨createTableSQL, []⟩, false⟩], rest := oTail o } := by
          simp [onCreateTable, execCreatePhase, hg, ht, hb]
        rw [hres] at h
        simp at h
    · -- a table exists: onDropTable runs first
      have hsome : s.table.isSome = true := by rw [ht]; rfl
      have hg2 : ensureDbOpen { s with table := none } = true := by
        simpa [ensureDbOpen] using hg
      by_cases hb : oHead o = true
      · have hdrop : onDropTable o s =
            { state := { s with table := none }, log := ["onDropTable: OK"],
              issued := [⟨⟨dropTableSQL, []⟩, true⟩], rest := oTail o } := by
          simp [onDropTable, hg, ht, hb]
        by_cases hb2 : oHead (oTail o) = true
        · have hres : onCreateTable o s =
              { state := { s with table := some ⟨1, rectangleColumns, []⟩ },
                log := ["onCreateTable: table exists, dropping first...",
                        "onDropTable: OK", "onCreateTable: OK"],
                issued := [⟨⟨dropTableSQL, []⟩, true⟩, ⟨⟨createTableSQL, []⟩, true⟩],
                rest := oTail (oTail o) } := by
            simp [onCreateTable, execCreatePhase, hg, hsome, hdrop, hg2, hb2]
          rw [hres, hdrop]
          exact ⟨rfl, Or.inr ⟨rfl, rfl, rfl, rfl⟩⟩
        · have hres : onCreateTable o s =
              { state := { s with table := none },
                log := ["onCreateTable: table exists, dropping first...",
                        "onDropTable: OK", "onCreateTable: CREATE TABLE failed"],
                issued := [⟨⟨dropTableSQL, []⟩, true⟩, ⟨⟨createTableSQL, []⟩, false⟩],
                rest := oTail (oTail o) } := by
            simp [onCreateTable, execCreatePhase, hg, hsome, hdrop, hg2, hb2]
          rw [hres] at h
          simp at h
      · -- the DROP fails; the CREATE is still issued but cannot succeed
        have hdrop : onDropTable o s =
            { state := s, log := ["onDropTable: DROP TABLE failed"],
              issued := [⟨⟨dropTableSQL, []⟩, false⟩], rest := oTail o } := by
          simp [onDropTable, hg, ht, hb]
        have hres : onCreateTable o s =
            { state := s,
              log := ["onCreateTable: table exists, dropping first...",
                      "onDropTable: DROP TABLE failed",
                      "onCreateTable: CREATE TABLE failed"],
              issued := [⟨⟨dropTableSQL, []⟩, false⟩, ⟨⟨createTableSQL, []⟩, false⟩],
              rest := oTail (oTail o) } := by
          simp [onCreateTable, execCreatePhase, hg, hsome, hdrop, ht]
        rw [hres] at h
        simp at h
  · have hres : onCreateTable o s =
        { state := s, log := guardFailLog "onCreateTable" s,
          issued := [], rest := o } := by
      simp [onCreateTable, hg]
    rw [hres] at h
    by_cases hv : s.mdbValid = true
    · simp [guardFailLog, hv] at h
    · simp [guardFailLog, hv] at h

-- ------------------------- issued-statement shapes --------------------------

/-- Every statement `onDropTable` ever issues is the fixed DROP. -/
lemma onDropTable_issued_stmt (o : List Bool) (s : AppState) :
    ∀ e ∈ (onDropTable o s).issued, e.stmt = ⟨dropTableSQL, []⟩ := by
  intro e he
  by_cases hg : ensureDbOpen s = true
  · rcases ht : s.table with _ | t
    · simp [onDropTable, hg, ht] at he
    · by_cases hb : oHead o = true
      · simp [onDropTable, hg, ht, hb] at he
        simp [he]
      · simp [onDropTable, hg, ht, hb] at he
        simp [he]
  · simp [onDropTable, hg] at he

/-- Every statement `onPrintTable` ever issues is the fixed SELECT. -/
lemma onPrintTable_issued_stmt (o : List Bool) (s : AppState) :
    ∀ e ∈ (onPrintTable o s).issued, e.stmt = ⟨selectSQL, []⟩ := by
  intro e he
  by_cases hg : ensureDbOpen s = true
  · rcases ht : s.table with _ | t
    · simp [onPrintTable, hg, ht] at he
    · by_cases hb : oHead o = true
      · simp [onPrintTable, hg, ht, hb] at he
        simp [he]
      · simp [onPrintTable, hg, ht, hb] at he
        simp [he]
  · simp [onPrintTable, hg] at he

/-- The statements `onCreateTable` issues: nothing (guard failure), the
CREATE alone, or the DROP followed by the CREATE. -/
lemma onCreateTable_issued_cases (o : List Bool) (s : AppState) :
    (onCreateTable o s).issued = [] ∨
    (∃ b, (onCreateTable o s).issued = [⟨⟨createTableSQL, []⟩, b⟩]) ∨
    (∃ b b2, (onCreateTable o s).issued =
      [⟨⟨dropTableSQL, []⟩, b2⟩, ⟨⟨createTableSQL, []⟩, b⟩]) := by
  by_cases hg : ensureDbOpen s = true
  · rcases ht : s.table with _ | t
    · by_cases hb : oHead o = true
      · exact Or.inr (Or.inl ⟨true, by simp [onCreateTable, execCreatePhase, hg, ht, hb]⟩)
      · exact Or.inr (Or.inl ⟨false, by simp [onCreateTable, execCreatePhase, hg, ht, hb]⟩)
    · have hsome : s.table.isSome = true := by rw [ht]; rfl
      have hg2 : ensureDbOpen { s with table := none } = true := by
        simpa [ensureDbOpen] using hg
      by_cases hb : oHead o = true
      · have hdrop : onDropTable o s =
            { state := { s with table := none }, log := ["onDropTable: OK"],
              issued := [⟨⟨dropTableSQL, []⟩, true⟩], rest := oTail o } := by
          simp [onDropTable, hg, ht, hb]
        by_cases hb2 : oHead (oTail o) = true
        · exact Or.inr (Or.inr ⟨true, true,
            by simp [onCreateTable, execCreatePhase, hg, hsome, hdrop, hg2, hb2]⟩)
        · exact Or.inr (Or.inr ⟨false, true,
            by simp [onCreateTable, execCreatePhase, hg, hsome, hdrop, hg2, hb2]⟩)
      · have hdrop : onDropTable o s =
            { state := s, log := ["onDropTable: DROP TABLE failed"],
              issued := [⟨⟨dropTableSQL, []⟩, false⟩], rest := oTail o } := by
          simp [onDropTable, hg, ht, hb]
        exact Or.inr (Or.inr ⟨false, false,
          by simp [onCreateTable, execCreatePhase, hg, hsome, hdrop, ht]⟩)
  · exact Or.inl (by simp [onCreateTable, hg])

/-- Every statement `onInsertInto` ever issues carries one of the three
INSERT texts. -/
lemma onInsertInto_issued_text (o : List Bool) (s : AppState) :
    ∀ e ∈ (onInsertInto o s).issued,
      e.stmt.text = simpleInsertSQL ∨ e.stmt.text = namedInsertSQL ∨
      e.stmt.text = positionalInsertSQL := by
  intro e he
  by_cases hg : ensureDbOpen s = true
  · by_cases hsome : s.table.isSome = true
    · simp only [onInsertInto] at he
      rw [if_pos hg, if_pos hsome] at he
      set e1 := execInsert ⟨simpleInsertSQL, []⟩ simpleRect s o with he1
      set k2 := runInserts namedInsertSQL rects e1.state e1.rest with hk2
      set k3 := runInserts positionalInsertSQL rects k2.state k2.rest with hk3
      set k4 := runInserts positionalInsertSQL rects k3.state k3.rest with hk4
      have hmem1 : ∀ x ∈ e1.issued, x.stmt.text = simpleInsertSQL := by
        intro x hx
        rw [he1] at hx
        simp [execInsert] at hx
        simp [hx]
      have hmem2 : ∀ x ∈ k2.issued, x.stmt.text = namedInsertSQL := by
        intro x hx
        rw [hk2] at hx
        exact runInserts_text _ _ _ _ x hx
      have hmem3 : ∀ x ∈ k3.issued, x.stmt.text = positionalInsertSQL := by
        intro x hx
        rw [hk3] at hx
        exact runInserts_text _ _ _ _ x hx
      have hmem4 : ∀ x ∈ k4.issued, x.stmt.text = positionalInsertSQL := by
        intro x hx
        rw [hk4] at hx
        exact runInserts_text _ _ _ _ x hx
      by_cases h1 : e1.ok = true
      · rw [if_pos h1] at he
        by_cases h2 : k2.ok = true
        · rw [if_pos h2] at he
          by_cases h3 : k3.ok = true
          · rw [if_pos h3] at he
            by_cases h4 : k4.ok = true
            · rw [if_pos h4] at he
              simp only [List.mem_append] at he
              rcases he with ((he | he) | he) | he
              · exact Or.inl (hmem1 e he)
              · exact Or.inr (Or.inl (hmem2 e he))
              · exact Or.inr (Or.inr (hmem3 e he))
              · exact Or.inr (Or.inr (hmem4 e he))
            · rw [if_neg h4] at he
              simp only [List.mem_append] at he
              rcases he with ((he | he) | he) | he
              · exact Or.inl (hmem1 e he)
              · exact Or.inr (Or.inl (hmem2 e he))
              · exact Or.inr (Or.inr (hmem3 e he))
              · exact Or.inr (Or.inr (hmem4 e he))
          · rw [if_neg h3] at he
            simp only [List.mem_append] at he
            rcases he with (he | he) | he
            · exact Or.inl (hmem1 e he)
            · exact Or.inr (Or.inl (hmem2 e he))
            · exact Or.inr (Or.inr (hmem3 e he))
        · rw [if_neg h2] at he
          simp only [List.mem_append] at he
          rcases he with he | he
          · exact Or.inl (hmem1 e he)
          · exact Or.inr (Or.inl (hmem2 e he))
      · rw [if_neg h1] at he
        exact Or.inl (hmem1 e he)
    · simp [onInsertInto, hg, hsome] at he
  · simp [onInsertInto, hg] at he

-- ------------------------- stop-at-first-failure lemmas ---------------------

/-- `execInsert` issues exactly one statement, carrying its own outcome. -/
lemma execInsert_issued (st : Stmt) (r : MyRect) (s : AppState) (o : List Bool) :
    (execInsert st r s o).issued = [⟨st, (execInsert st r s o).ok⟩] := by
  simp [execInsert]

/-- A list of all-successful statements trivially satisfies
`onlyLastFails`. -/
lemma onlyLastFails_of_all (l : List Issued) (h : ∀ e ∈ l, e.ok = true) :
    onlyLastFails l := by
  intro e he
  exact h e ((l.dropLast_sublist).subset he)

/-- Successes followed by one failure satisfy `onlyLastFails`. -/
lemma onlyLastFails_append (L1 l : List Issued) (f : Issued)
    (h1 : ∀ e ∈ L1, e.ok = true) (hl : ∀ e ∈ l, e.ok = true) :
    onlyLastFails (L1 ++ (l ++ [f])) := by
  intro e he
  rw [show L1 ++ (l ++ [f]) = (L1 ++ l) ++ [f] by simp] at he
  rw [dropLast_append_single] at he
  rcases List.mem_append.mp he with h | h
  · exact h1 e h
  · exact hl e h

/-- `onInsertInto` stops at the first failed exec (only the last issued
statement can have failed), and any failure leaves one of the four block
failure messages in the log. -/
lemma onInsertInto_stops (o : List Bool) (s : AppState) :
    onlyLastFails (onInsertInto o s).issued ∧
    ((∃ e ∈ (onInsertInto o s).issued, e.ok = false) →
      ∃ m ∈ insertFailMsgs, m ∈ (onInsertInto o s).log) := by
  by_cases hg : ensureDbOpen s = true
  · by_cases hsome : s.table.isSome = true
    · simp only [onInsertInto]
      rw [if_pos hg, if_pos hsome]
      set e1 := execInsert ⟨simpleInsertSQL, []⟩ simpleRect s o with he1
      set k2 := runInserts namedInsertSQL rects e1.state e1.rest with hk2
      set k3 := runInserts positionalInsertSQL rects k2.state k2.rest with hk3
      set k4 := runInserts positionalInsertSQL rects k3.state k3.rest with hk4
      by_cases h1 : e1.ok = true
      · rw [if_pos h1]
        have hm1 : ∀ x ∈ e1.issued, x.ok = true := by
          intro x hx
          rw [he1, execInsert_issued] at hx
          simp at hx
          rw [hx, ← he1]
          exact h1
        by_cases h2 : k2.ok = true
        · rw [if_pos h2]
          have hm2 : ∀ x ∈ k2.issued, x.ok = true := by
            rw [hk2]
            exact runInserts_ok_all _ _ _ _ (hk2 ▸ h2)
          by_cases h3 : k3.ok = true
          · rw [if_pos h3]
            have hm3 : ∀ x ∈ k3.issued, x.ok = true := by
              rw [hk3]
              exact runInserts_ok_all _ _ _ _ (hk3 ▸ h3)
            by_cases h4 : k4.ok = true
            · rw [if_pos h4]
              have hm4 : ∀ x ∈ k4.issued, x.ok = true := by
                rw [hk4]
                exact runInserts_ok_all _ _ _ _ (hk4 ▸ h4)
              dsimp only
              have hall : ∀ x ∈ e1.issued ++ k2.issued ++ k3.issued ++ k4.issued,
                  x.ok = true := by
                intro x hx
                simp only [List.mem_append] at hx
                rcases hx with ((hx | hx) | hx) | hx
                · exact hm1 x hx
                · exact hm2 x hx
                · exact hm3 x hx
                · exact hm4 x hx
              refine ⟨onlyLastFails_of_all _ hall, ?_⟩
              rintro ⟨e, he, hef⟩
              rw [hall e he] at hef
              cases hef
            · rw [if_neg h4]
              dsimp only
              obtain ⟨l, f, hsplit, hf, hl⟩ :=
                runInserts_fail_split positionalInsertSQL rects k3.state k3.rest
                  (by rw [← hk4]; simpa using h4)
              rw [← hk4] at hsplit
              constructor
              · rw [hsplit, show e1.issued ++ k2.issued ++ k3.issued ++ (l ++ [f]) =
                    (e1.issued ++ k2.issued ++ k3.issued) ++ (l ++ [f]) by simp]
                refine onlyLastFails_append _ _ _ ?_ hl
                intro x hx
                simp only [List.mem_append] at hx
                rcases hx with (hx | hx) | hx
                · exact hm1 x hx
                · exact hm2 x hx
                · exact hm3 x hx
              · intro hfail
                exact ⟨"onInsertInto: positional bindValue failed",
                  by simp [insertFailMsgs], by simp⟩
          · rw [if_neg h3]
            dsimp only
            obtain ⟨l, f, hsplit, hf, hl⟩ :=
              runInserts_fail_split positionalInsertSQL rects k2.state k2.rest
                (by rw [← hk3]; simpa using h3)
            rw [← hk3] at hsplit
            constructor
            · rw [hsplit, show e1.issued ++ k2.issued ++ (l ++ [f]) =
                  (e1.issued ++ k2.issued) ++ (l ++ [f]) by simp]
              refine onlyLastFails_append _ _ _ ?_ hl
              intro x hx
              rcases List.mem_append.mp hx with hx | hx
              · exact hm1 x hx
              · exact hm2 x hx
            · intro hfail
              exact ⟨"onInsertInto: addBindValue failed",
                by simp [insertFailMsgs], by simp⟩
        · rw [if_neg h2]
          dsimp only
          obtain ⟨l, f, hsplit, hf, hl⟩ :=
            runInserts_fail_split namedInsertSQL rects e1.state e1.rest
              (by rw [← hk2]; simpa using h2)
          rw [← hk2] at hsplit
          constructor
          · rw [hsplit]
            exact onlyLastFails_append _ _ _ hm1 hl
          · intro hfail
            exact ⟨"onInsertInto: named bindValue failed",
              by simp [insertFailMsgs], by simp⟩
      · rw [if_neg h1]
        dsimp only
        constructor
        · rw [he1, execInsert_issued]
          intro x hx
          simp at hx
        · intro hfail
          exact ⟨"onInsertInto: simple INSERT failed",
            by simp [insertFailMsgs], by simp⟩
    · constructor
      · simp [onInsertInto, hg, hsome, onlyLastFails]
      · rintro ⟨e, he, _⟩
        simp [onInsertInto, hg, hsome] at he
  · constructor
    · simp [onInsertInto, hg, onlyLastFails]
    · rintro ⟨e, he, _⟩
      simp [onInsertInto, hg] at he

/-- `onDropTable` issues at most one statement per run, and logs its
failure message when the DROP fails. -/
lemma onDropTable_stops (o : List Bool) (s : AppState) :
    onlyLastFails (onDropTable o s).issued ∧
    ((∃ e ∈ (onDropTable o s).issued, e.ok = false) →
      "onDropTable: DROP TABLE failed" ∈ (onDropTable o s).log) := by
  by_cases hg : ensureDbOpen s = true
  · rcases ht : s.table with _ | t
    · constructor
      · simp [onDropTable, hg, ht, onlyLastFails]
      · rintro ⟨e, he, _⟩
        simp [onDropTable, hg, ht] at he
    · by_cases hb : oHead o = true
      · constructor
        · simp [onDropTable, hg, ht, hb, onlyLastFails]
        · rintro ⟨e, he, hef⟩
          simp [onDropTable, hg, ht, hb] at he
          rw [he] at hef
          cases hef
      · constructor
        · simp [onDropTable, hg, ht, hb, onlyLastFails]
        · intro hfail
          simp [onDropTable, hg, ht, hb]
  · constructor
    · simp [onDropTable, hg, onlyLastFails]
    · rintro ⟨e, he, _⟩
      simp [onDropTable, hg] at he

/-- `onPrintTable` issues at most one statement per run, and logs its
failure message when the SELECT fails. -/
lemma onPrintTable_stops (o : List Bool) (s : AppState) :
    onlyLastFails (onPrintTable o s).issued ∧
    ((∃ e ∈ (onPrintTable o s).issued, e.ok = false) →
      "onPrintTable: SELECT failed" ∈ (onPrintTable o s).log) := by
  by_cases hg : ensureDbOpen s = true
  · rcases ht : s.table with _ | t
    · constructor
      · simp [onPrintTable, hg, ht, onlyLastFails]
      · rintro ⟨e, he, _⟩
        simp [onPrintTable, hg, ht] at he
    · by_cases hb : oHead o = true
      · constructor
        · simp [onPrintTable, hg, ht, hb, onlyLastFails]
        · rintro ⟨e, he, hef⟩
          simp [onPrintTable, hg, ht, hb] at he
          rw [he] at hef
          cases hef
      · constructor
        · simp [onPrintTable, hg, ht, hb, onlyLastFails]
        · intro hfail
          simp [onPrintTable, hg, ht, hb]
  · constructor
    · simp [onPrintTable, hg, onlyLastFails]
    · rintro ⟨e, he, _⟩
      simp [onPrintTable, hg] at he

-- ------------------------- further helpers ----------------------------------

/-- The registry after `onCreateConnection`: unchanged when the name was
already registered, extended by the name otherwise (the open outcome never
touches the registry). -/
lemma onCreateConnection_registry (s : AppState) (b : Bool) :
    (onCreateConnection b s).state.registry =
      if s.registry.contains kConnName_ then s.registry
      else s.registry ++ [kConnName_] := by
  by_cases h : s.registry.contains kConnName_ = true
  · have hm : kConnName_ ∈ s.registry := by simpa using h
    cases b <;> simp [onCreateConnection, connectPhase, h, hm]
  · have hm : kConnName_ ∉ s.registry := by simpa using h
    have h2 : s.registry.contains kConnName_ = false := by simpa using h
    cases b <;> simp [onCreateConnection, connectPhase, h2, hm]

/-- A fully successful `onInsertInto` run (exhausted oracle, open
connection, existing table): the ten issued statements are exactly the four
techniques' statements in order, and the table gains the 1 + 3 + 3 + 3
rectangles in order. -/
lemma onInsertInto_success_run (s : AppState) (t : Table)
    (hv : s.mdbValid = true) (ho : s.mdbOpen = true) (ht : s.table = some t) :
    (onInsertInto [] s).issued.map Issued.stmt =
      insertTechniqueStmts 1 ++ insertTechniqueStmts 2 ++
      insertTechniqueStmts 3 ++ insertTechniqueStmts 4 ∧
    (onInsertInto [] s).state.table =
      some (Table.insertMany t (simpleRect :: (rects ++ rects ++ rects))) ∧
    (onInsertInto [] s).log =
      ["onInsertInto: simple INSERT OK", "onInsertInto: named bindValue OK",
       "onInsertInto: addBindValue OK", "onInsertInto: positional bindValue OK",
       "onInsertInto: DONE"] := by
  have hg : ensureDbOpen s = true := by simp [ensureDbOpen, hv, ho]
  have hsome : s.table.isSome = true := by rw [ht]; rfl
  refine ⟨?_, ?_, ?_⟩ <;>
    simp [onInsertInto, runInserts, execInsert, oHead, oTail, hg, ht, hsome,
      Table.insertMany, Table.insert, insertTechniqueStmts, rects, simpleRect,
      MyRect.binds]

-- ------------------------- claims -------------------------------------------

/-- An open connection whose database has no `rectangle` table yet. -/
def emptyDbState : AppState :=
  { registry := [kConnName_], mdbValid := true, mdbOpen := true, table := none,
    modelInit := false, modelTableName := none, modelRows := 0,
    delegateCols := [], hiddenCols := [], currentRow := none }

/-- C1 (counterexample): in a fully successful `onInsertInto` run the first
issued statement — technique 1 — is a plain non-parameterized INSERT (no
binds), and the rows technique 1 inserts differ from the rows technique 2
inserts, so the four techniques are neither all parameterized nor
row-equivalent as the claim states. -/
theorem C1_counterexample :
    (insertTechniqueStmts 1).all Stmt.parameterized = false ∧
    techniqueValueRows 1 ≠ techniqueValueRows 2 ∧
    (onInsertInto [] readyState).issued.map Issued.stmt =
      insertTechniqueStmts 1 ++ insertTechniqueStmts 2 ++
      insertTechniqueStmts 3 ++ insertTechniqueStmts 4 := by
  refine ⟨by decide, by decide, ?_⟩
  exact (onInsertInto_success_run readyState ⟨1, rectangleColumns, []⟩
    rfl rfl rfl).1

/-- C1 (amended): `onInsertInto` populates the table through four insert
techniques of which the three prepared ones (2: named `bindValue`,
3: `addBindValue`, 4: positional `bindValue`) are parameterized and insert
the same three rectangle rows (so any of those three could be substituted
for another); technique 1 is a literal non-prepared INSERT of one different
row. In a fully successful run the issued statements are exactly the four
techniques' statements and the table gains the 1 + 3 + 3 + 3 rows in
order. -/
theorem C1_insert_techniques :
    ((insertTechniqueStmts 2).all Stmt.parameterized = true ∧
     (insertTechniqueStmts 3).all Stmt.parameterized = true ∧
     (insertTechniqueStmts 4).all Stmt.parameterized = true ∧
     techniqueValueRows 2 = techniqueValueRows 3 ∧
     techniqueValueRows 3 = techniqueValueRows 4) ∧
    (∀ (s : AppState) (t : Table), s.mdbValid = true → s.mdbOpen = true →
      s.table = some t →
      (onInsertInto [] s).issued.map Issued.stmt =
        insertTechniqueStmts 1 ++ insertTechniqueStmts 2 ++
        insertTechniqueStmts 3 ++ insertTechniqueStmts 4 ∧
      (onInsertInto [] s).state.table =
        some ⟨t.nextId + 10, t.columns,
          t.rows ++ insertedRows t.nextId
            (simpleRect :: (rects ++ rects ++ rects))⟩) := by
  refine ⟨by decide, ?_⟩
  intro s t hv ho ht
  obtain ⟨h1, h2, _⟩ := onInsertInto_success_run s t hv ho ht
  refine ⟨h1, ?_⟩
  rw [h2, Table.insertMany_eq]
  norm_num [rects]

/-- C1 (witness): the amended claim at a concrete ready state. -/
theorem C1_insert_techniques_witness :
    (onInsertInto [] readyState).issued.map Issued.stmt =
      insertTechniqueStmts 1 ++ insertTechniqueStmts 2 ++
      insertTechniqueStmts 3 ++ insertTechniqueStmts 4 :=
  (C1_insert_techniques.2 readyState ⟨1, rectangleColumns, []⟩ rfl rfl rfl).1

/-- C2: after a successful `onInitTableModel`, the custom delegate is
installed on exactly the two view columns 1 and 2, which are the `pencolor`
and `penstyle` columns of the `rectangle` table and the delegate's
`kPenColorColumn` / `kPenStyleColumn`; a left-button double-click on a
pen-color cell with a chosen color writes that color to the model, and
editing a pen-style cell creates a combo box holding the six Qt pen
styles. -/
theorem C2_delegate_columns :
    ∀ (s : AppState) (t : Table), s.mdbValid = true → s.mdbOpen = true →
      s.table = some t →
      (onInitTableModel true s).state.delegateCols =
        [kPenColorColumn, kPenStyleColumn] ∧
      kPenColorColumn = 1 ∧ kPenStyleColumn = 2 ∧
      (rectangleColumns.map Prod.fst).getD kPenColorColumn "" = "pencolor" ∧
      (rectangleColumns.map Prod.fst).getD kPenStyleColumn "" = "penstyle" ∧
      (∀ (m : ItemModel) (row : Nat) (c : String),
        editorEvent true true row kPenColorColumn EventType.mouseDblClick
          MouseButton.leftB (some c) m =
          (true, m.setData row kPenColorColumn (CellVal.color c))) ∧
      createEditor true kPenStyleColumn = Editor.combo penStyleComboItems ∧
      penStyleComboItems.length = 6 ∧
      penStyleComboItems.map Prod.snd = [0, 1, 2, 3, 4, 5] := by
  intro s t hv ho ht
  have hg : ensureDbOpen s = true := by simp [ensureDbOpen, hv, ho]
  refine ⟨?_, rfl, rfl, by decide, by decide, ?_, by decide, by decide, by decide⟩
  · simp [onInitTableModel, hg, ht, kPenColorColumn, kPenStyleColumn]
  · intro m row c
    simp [editorEvent, kPenColorColumn]

/-- C2 (witness): the delegate columns of a concrete successful
`onInitTableModel` run. -/
theorem C2_delegate_columns_witness :
    (onInitTableModel true readyState).state.delegateCols =
      [kPenColorColumn, kPenStyleColumn] :=
  (C2_delegate_columns readyState ⟨1, rectangleColumns, []⟩ rfl rfl rfl).1

/-- C3 (counterexample): the delegate class declares five overrides
(`createEditor`, `setEditorData`, `setModelData`, `editorEvent`, `paint`),
not four as claimed. -/
theorem C3_counterexample :
    delegateOverrides.length = 5 ∧ ¬ delegateOverrides.length = 4 := by
  decide

/-- C3 (amended): the delegate class has five short branch-dispatched
overrides, one of which is a custom paint for exactly one column: for every
cell of the pen-style column, `paint` draws the textual name of the stored
pen style (with the `"Style(N)"` fallback for values outside the six known
`Qt::PenStyle` values), and for every cell of any other column painting
defers to the base class. -/
theorem C3_delegate_paint :
    delegateOverrides =
      ["createEditor", "setEditorData", "setModelData", "editorEvent",
       "paint"] ∧
    delegateOverrides.length = 5 ∧
    (∀ (m : ItemModel) (row : Nat),
      paint m row kPenStyleColumn =
        PaintAction.comboText (penStyleToText ((m.data row kPenStyleColumn).toInt))) ∧
    (∀ (m : ItemModel) (row c : Nat), c ≠ kPenStyleColumn →
      paint m row c = PaintAction.base) ∧
    (penStyleToText 0 = "NoPen" ∧ penStyleToText 1 = "SolidLine" ∧
     penStyleToText 2 = "DashLine" ∧ penStyleToText 3 = "DotLine" ∧
     penStyleToText 4 = "DashDotLine" ∧ penStyleToText 5 = "DashDotDotLine") ∧
    (∀ v : Int, v < 0 ∨ 5 < v →
      penStyleToText v = "Style(" ++ toString v ++ ")") := by
  refine ⟨rfl, rfl, ?_, ?_, by decide, ?_⟩
  · intro m row
    simp [paint]
  · intro m row c hc
    simp [paint, hc]
  · intro v hv
    have h0 : ¬ v = 0 := by omega
    have h1 : ¬ v = 1 := by omega
    have h2 : ¬ v = 2 := by omega
    have h3 : ¬ v = 3 := by omega
    have h4 : ¬ v = 4 := by omega
    have h5 : ¬ v = 5 := by omega
    simp [penStyleToText, h0, h1, h2, h3, h4, h5]

/-- C3 (witness): base-class painting for a non-pen-style column and the
fallback text at a concrete out-of-range value. -/
theorem C3_delegate_paint_witness :
    paint m0 0 0 = PaintAction.base ∧
    penStyleToText 9999 = "Style(" ++ toString (9999 : Int) ++ ")" :=
  ⟨C3_delegate_paint.2.2.2.1 m0 0 0 (by decide),
   C3_delegate_paint.2.2.2.2.2 9999 (Or.inr (by norm_num))⟩

/-- C4: whenever `onCreateTable` reports success, the table it created is
the fixed-schema `rectangle` table with exactly the eight columns `id`
(INTEGER PRIMARY KEY AUTOINCREMENT), `pencolor`, `penstyle`, `penwidth`,
`left`, `top`, `width`, `height`; the schema is a constant, independent of
the prior state and of any input, and the last executed statement is the
fixed CREATE TABLE text assembled from exactly those columns. -/
theorem C4_fixed_schema :
    ∀ (o : List Bool) (s : AppState),
      "onCreateTable: OK" ∈ (onCreateTable o s).log →
      (onCreateTable o s).state.table = some ⟨1, rectangleColumns, []⟩ ∧
      rectangleColumns.map Prod.fst =
        ["id", "pencolor", "penstyle", "penwidth", "left", "top", "width",
         "height"] ∧
      (rectangleColumns.map Prod.snd).getD 0 "" =
        "INTEGER PRIMARY KEY AUTOINCREMENT" ∧
      rectangleColumns.length = 8 ∧
      createTableSQL = "CREATE TABLE rectangle (" ++
        String.intercalate ","
          (rectangleColumns.map (fun p => " " ++ p.1 ++ " " ++ p.2)) ++ ");" ∧
      ((onCreateTable o s).issued.map (fun e => e.stmt.text)).getLast? =
        some createTableSQL ∧
      kTable_ = "rectangle" := by
  intro o s h
  obtain ⟨h1, h2⟩ := createTable_ok_cases o s h
  refine ⟨h1, by decide, by decide, by decide, by decide, ?_, rfl⟩
  rcases h2 with ⟨_, hiss⟩ | ⟨_, hiss, hdrop, _⟩
  · rw [hiss]
    rfl
  · rw [hiss, hdrop]
    simp

/-- C4 (witness): the fixed schema at a concrete successful run. -/
theorem C4_fixed_schema_witness :
    (onCreateTable [] emptyDbState).state.table =
      some ⟨1, rectangleColumns, []⟩ :=
  (C4_fixed_schema [] emptyDbState (by decide)).1

/-- C5 (counterexample): when a table pre-exists and the DROP issued via
`onDropTable` fails, `onCreateTable` does NOT return at the first failing
statement: it still issues the CREATE statement afterwards (which then also
fails), so the run issues a second statement after the first failure while
logging the drop failure. -/
theorem C5_counterexample :
    (onCreateTable [false] readyState).issued =
      [⟨⟨dropTableSQL, []⟩, false⟩, ⟨⟨createTableSQL, []⟩, false⟩] ∧
    "onDropTable: DROP TABLE failed" ∈ (onCreateTable [false] readyState).log := by
  constructor
  · decide
  · decide

/-- C5 (amended): each slot reports its failures to the debug log and stops
at its first failed exec — `onCreateConnection` issues no SQL at all and
always logs; `onDropTable`, `onPrintTable` and `onInsertInto` never issue a
statement after a failed one (in particular `onInsertInto` abandons all
remaining inserts after the first failed exec) and log the failing block's
message; the one exception is `onCreateTable`, which after a failed DROP
(run via `onDropTable`) still issues its CREATE statement — it stops at the
first failure only when no table pre-existed, and in any case issues at
most the two fixed statements. -/
theorem C5_stop_on_failure :
    (∀ (s : AppState) (b : Bool),
      (onCreateConnection b s).issued = [] ∧ (onCreateConnection b s).log ≠ []) ∧
    (∀ (o : List Bool) (s : AppState),
      onlyLastFails (onDropTable o s).issued ∧
      ((∃ e ∈ (onDropTable o s).issued, e.ok = false) →
        "onDropTable: DROP TABLE failed" ∈ (onDropTable o s).log)) ∧
    (∀ (o : List Bool) (s : AppState),
      onlyLastFails (onPrintTable o s).issued ∧
      ((∃ e ∈ (onPrintTable o s).issued, e.ok = false) →
        "onPrintTable: SELECT failed" ∈ (onPrintTable o s).log)) ∧
    (∀ (o : List Bool) (s : AppState),
      onlyLastFails (onInsertInto o s).issued ∧
      ((∃ e ∈ (onInsertInto o s).issued, e.ok = false) →
        ∃ m ∈ insertFailMsgs, m ∈ (onInsertInto o s).log)) ∧
    (∀ (o : List Bool) (s : AppState), s.table = none →
      onlyLastFails (onCreateTable o s).issued) ∧
    (∀ (o : List Bool) (s : AppState), (onCreateTable o s).issued.length ≤ 2) := by
  refine ⟨?_, onDropTable_stops, onPrintTable_stops, onInsertInto_stops, ?_, ?_⟩
  · intro s b
    constructor <;>
      · simp only [onCreateConnection, connectPhase]
        split_ifs <;> simp
  · intro o s hnone
    by_cases hg : ensureDbOpen s = true
    · by_cases hb : oHead o = true <;>
        simp [onCreateTable, execCreatePhase, hg, hnone, hb, onlyLastFails]
    · simp [onCreateTable, hg, onlyLastFails]
  · intro o s
    rcases onCreateTable_issued_cases o s with h | ⟨b, h⟩ | ⟨b, b2, h⟩ <;>
      rw [h] <;> simp

/-- C5 (witness): a concrete failing DROP is reported to the log. -/
theorem C5_stop_on_failure_witness :
    "onDropTable: DROP TABLE failed" ∈ (onDropTable [false] readyState).log :=
  (C5_stop_on_failure.2.1 [false] readyState).2 (by decide)

/-- C6: the connection is registered under the fixed key
"rectangles_conn"; the first `onCreateConnection` registers it, every later
call reuses the registered connection without adding another, repeating the
slot does not change the registry (idempotence), and the registry never
holds more than one connection with that name. -/
theorem C6_named_connection :
    kConnName_ = "rectangles_conn" ∧
    (∀ (s : AppState) (b : Bool), s.registry.contains kConnName_ = false →
      (onCreateConnection b s).state.registry = s.registry ++ [kConnName_]) ∧
    (∀ (s : AppState) (b : Bool), s.registry.contains kConnName_ = true →
      (onCreateConnection b s).state.registry = s.registry) ∧
    (∀ (s : AppState) (b c : Bool),
      (onCreateConnection b (onCreateConnection c s).state).state.registry =
        (onCreateConnection c s).state.registry) ∧
    (∀ (s : AppState) (b : Bool), s.registry.count kConnName_ ≤ 1 →
      (onCreateConnection b s).state.registry.count kConnName_ ≤ 1) := by
  refine ⟨rfl, ?_, ?_, ?_, ?_⟩
  · intro s b h
    rw [onCreateConnection_registry, if_neg (by simpa using h)]
  · intro s b h
    rw [onCreateConnection_registry, if_pos h]
  · intro s b c
    rw [onCreateConnection_registry, onCreateConnection_registry]
    by_cases h : s.registry.contains kConnName_ = true
    · have hm : kConnName_ ∈ s.registry := by simpa using h
      simp [h, hm]
    · have hm : kConnName_ ∉ s.registry := by simpa using h
      have h2 : s.registry.contains kConnName_ = false := by simpa using h
      simp [h2, hm]
  · intro s b hcount
    rw [onCreateConnection_registry]
    by_cases h : s.registry.contains kConnName_ = true
    · rw [if_pos h]
      exact hcount
    · rw [if_neg h]
      have hm : kConnName_ ∉ s.registry := by simpa using h
      have h0 : s.registry.count kConnName_ = 0 := by
        rw [List.count_eq_zero]
        exact hm
      simp [List.count_append, h0]

/-- C6 (witness): the first call from the start state registers exactly the
fixed name. -/
theorem C6_named_connection_witness :
    (onCreateConnection true initState).state.registry =
      initState.registry ++ [kConnName_] :=
  C6_named_connection.2.1 initState true (by decide)

/-- C7: the SQL text the BD slots pass to exec is fixed: in every state and
every run, each issued statement's text is one of the six literal
CREATE/DROP/INSERT/SELECT strings over the `rectangle` table — no SQL text
is derived from user input or database contents (only bound parameter
values vary). -/
theorem C7_fixed_sql_texts :
    (∀ (o : List Bool) (s : AppState), ∀ e ∈ (onCreateTable o s).issued,
      e.stmt.text ∈ fixedSQLTexts) ∧
    (∀ (o : List Bool) (s : AppState), ∀ e ∈ (onDropTable o s).issued,
      e.stmt.text ∈ fixedSQLTexts) ∧
    (∀ (o : List Bool) (s : AppState), ∀ e ∈ (onInsertInto o s).issued,
      e.stmt.text ∈ fixedSQLTexts) ∧
    (∀ (o : List Bool) (s : AppState), ∀ e ∈ (onPrintTable o s).issued,
      e.stmt.text ∈ fixedSQLTexts) := by
  refine ⟨?_, ?_, ?_, ?_⟩
  · intro o s e he
    rcases onCreateTable_issued_cases o s with h | ⟨b, h⟩ | ⟨b, b2, h⟩ <;>
      rw [h] at he
    · simp at he
    · simp at he
      rw [he]
      simp [fixedSQLTexts]
    · simp at he
      rcases he with he | he <;> (rw [he]; simp [fixedSQLTexts])
  · intro o s e he
    rw [onDropTable_issued_stmt o s e he]
    simp [fixedSQLTexts]
  · intro o s e he
    rcases onInsertInto_issued_text o s e he with h | h | h <;> rw [h] <;>
      simp [fixedSQLTexts]
  · intro o s e he
    rw [onPrintTable_issued_stmt o s e he]
    simp [fixedSQLTexts]

/-- C7 (witness): the statement issued by a concrete `onPrintTable` run has
one of the fixed texts. -/
theorem C7_fixed_sql_texts_witness :
    (⟨⟨selectSQL, []⟩, true⟩ : Issued).stmt.text ∈ fixedSQLTexts :=
  C7_fixed_sql_texts.2.2.2 [] readyState ⟨⟨selectSQL, []⟩, true⟩ (by decide)

/-- C8: every database-operating slot, when the connection is not both
valid and open — or when a required precondition fails (missing `rectangle`
table, uninitialized model, no selected row) — only logs a diagnostic and
returns without executing any SQL, leaving the state (database and model)
unchanged. -/
theorem C8_guarded_slots :
    (∀ (o : List Bool) (s : AppState), ¬ (s.mdbValid = true ∧ s.mdbOpen = true) →
      (onCreateTable o s).state = s ∧ (onCreateTable o s).issued = []) ∧
    (∀ (o : List Bool) (s : AppState), ¬ (s.mdbValid = true ∧ s.mdbOpen = true) →
      (onDropTable o s).state = s ∧ (onDropTable o s).issued = []) ∧
    (∀ (o : List Bool) (s : AppState), ¬ (s.mdbValid = true ∧ s.mdbOpen = true) →
      (onInsertInto o s).state = s ∧ (onInsertInto o s).issued = []) ∧
    (∀ (o : List Bool) (s : AppState), ¬ (s.mdbValid = true ∧ s.mdbOpen = true) →
      (onPrintTable o s).state = s ∧ (onPrintTable o s).issued = []) ∧
    (∀ (b : Bool) (s : AppState), ¬ (s.mdbValid = true ∧ s.mdbOpen = true) →
      (onInitTableModel b s).state = s ∧ (onInitTableModel b s).issued = []) ∧
    (∀ (b : Bool) (s : AppState), ¬ (s.mdbValid = true ∧ s.mdbOpen = true) →
      (onInsertRow b s).state = s ∧ (onInsertRow b s).issued = []) ∧
    (∀ (b : Bool) (s : AppState), ¬ (s.mdbValid = true ∧ s.mdbOpen = true) →
      (onRemoveRow b s).state = s ∧ (onRemoveRow b s).issued = []) ∧
    (∀ (o : List Bool) (s : AppState), s.table = none →
      (onDropTable o s).state = s ∧ (onDropTable o s).issued = []) ∧
    (∀ (o : List Bool) (s : AppState), s.table = none →
      (onInsertInto o s).state = s ∧ (onInsertInto o s).issued = []) ∧
    (∀ (o : List Bool) (s : AppState), s.table = none →
      (onPrintTable o s).state = s ∧ (onPrintTable o s).issued = []) ∧
    (∀ (b : Bool) (s : AppState), s.table = none →
      (onInitTableModel b s).state = s ∧ (onInitTableModel b s).issued = []) ∧
    (∀ (b : Bool) (s : AppState), s.modelInit = false →
      (onInsertRow b s).state = s ∧ (onInsertRow b s).issued = []) ∧
    (∀ (b : Bool) (s : AppState), s.modelInit = false →
      (onRemoveRow b s).state = s ∧ (onRemoveRow b s).issued = []) ∧
    (∀ (b : Bool) (s : AppState), s.currentRow = none →
      (onRemoveRow b s).state = s ∧ (onRemoveRow b s).issued = []) := by
  have guardFalse : ∀ (s : AppState), ¬ (s.mdbValid = true ∧ s.mdbOpen = true) →
      ensureDbOpen s = false := by
    intro s h
    cases hv : s.mdbValid <;> cases ho : s.mdbOpen <;> simp_all [ensureDbOpen]
  refine ⟨?_, ?_, ?_, ?_, ?_, ?_, ?_, ?_, ?_, ?_, ?_, ?_, ?_, ?_⟩
  · intro o s h
    have hg := guardFalse s h
    exact ⟨by simp [onCreateTable, hg], by simp [onCreateTable, hg]⟩
  · intro o s h
    have hg := guardFalse s h
    exact ⟨by simp [onDropTable, hg], by simp [onDropTable, hg]⟩
  · intro o s h
    have hg := guardFalse s h
    exact ⟨by simp [onInsertInto, hg], by simp [onInsertInto, hg]⟩
  · intro o s h
    have hg := guardFalse s h
    exact ⟨by simp [onPrintTable, hg], by simp [onPrintTable, hg]⟩
  · intro b s h
    have hg := guardFalse s h
    exact ⟨by simp [onInitTableModel, hg], by simp [onInitTableModel, hg]⟩
  · intro b s h
    have hg := guardFalse s h
    exact ⟨by simp [onInsertRow, hg], by simp [onInsertRow, hg]⟩
  · intro b s h
    have hg := guardFalse s h
    exact ⟨by simp [onRemoveRow, hg], by simp [onRemoveRow, hg]⟩
  · intro o s h
    by_cases hg : ensureDbOpen s = true <;>
      exact ⟨by simp [onDropTable, hg, h], by simp [onDropTable, hg, h]⟩
  · intro o s h
    by_cases hg : ensureDbOpen s = true <;>
      exact ⟨by simp [onInsertInto, hg, h], by simp [onInsertInto, hg, h]⟩
  · intro o s h
    by_cases hg : ensureDbOpen s = true <;>
      exact ⟨by simp [onPrintTable, hg, h], by simp [onPrintTable, hg, h]⟩
  · intro b s h
    by_cases hg : ensureDbOpen s = true <;>
      exact ⟨by simp [onInitTableModel, hg, h], by simp [onInitTableModel, hg, h]⟩
  · intro b s h
    by_cases hg : ensureDbOpen s = true <;>
      exact ⟨by simp [onInsertRow, hg, h], by simp [onInsertRow, hg, h]⟩
  · intro b s h
    by_cases hg : ensureDbOpen s = true <;>
      exact ⟨by simp [onRemoveRow, hg, h], by simp [onRemoveRow, hg, h]⟩
  · intro b s h
    by_cases hg : ensureDbOpen s = true
    · by_cases hm : s.modelInit = true <;>
        exact ⟨by simp [onRemoveRow, hg, hm, h], by simp [onRemoveRow, hg, hm, h]⟩
    · exact ⟨by simp [onRemoveRow, hg], by simp [onRemoveRow, hg]⟩

/-- C8 (witness): a concrete closed-connection state is left unchanged. -/
theorem C8_guarded_slots_witness :
    (onCreateTable [] closedState).state = closedState ∧
    (onCreateTable [] closedState).issued = [] :=
  C8_guarded_slots.1 [] closedState (by decide)

/-- C9: whenever `onCreateTable` reports success, the `rectangle` table
exists afterwards and contains zero rows, regardless of whether a table
already existed and whatever it contained; when a table pre-existed it was
first dropped via `onDropTable` (one successful DROP statement) and then
recreated. -/
theorem C9_recreate_empty :
    ∀ (o : List Bool) (s : AppState),
      "onCreateTable: OK" ∈ (onCreateTable o s).log →
      (∃ t, (onCreateTable o s).state.table = some t ∧ t.rows = []) ∧
      (s.table.isSome = true →
        (onCreateTable o s).issued =
          (onDropTable o s).issued ++ [⟨⟨createTableSQL, []⟩, true⟩] ∧
        (onDropTable o s).issued = [⟨⟨dropTableSQL, []⟩, true⟩] ∧
        (onDropTable o s).state.table = none) := by
  intro o s h
  obtain ⟨h1, h2⟩ := createTable_ok_cases o s h
  refine ⟨⟨⟨1, rectangleColumns, []⟩, h1, rfl⟩, ?_⟩
  intro hsome
  rcases h2 with ⟨hnone, _⟩ | ⟨_, ha, hb, hc⟩
  · rw [hnone] at hsome
    simp at hsome
  · exact ⟨ha, hb, hc⟩

/-- C9 (witness): recreation over a concrete pre-existing table. -/
theorem C9_recreate_empty_witness :
    (onCreateTable [] readyState).issued =
      (onDropTable [] readyState).issued ++ [⟨⟨createTableSQL, []⟩, true⟩] :=
  ((C9_recreate_empty [] readyState (by decide)).2 (by decide)).1

/-- C10: a left-button double-click on a valid pen-color cell always
consumes the event (`editorEvent` returns true); if the color dialog is
cancelled (invalid color) the model is left unchanged, and the model is
written — with the chosen color at `Qt::EditRole` — only when a valid color
was chosen. -/
theorem C10_color_cancel :
    ∀ (m : ItemModel) (row : Nat),
      editorEvent true true row kPenColorColumn EventType.mouseDblClick
        MouseButton.leftB none m = (true, m) ∧
      (∀ c, editorEvent true true row kPenColorColumn EventType.mouseDblClick
        MouseButton.leftB (some c) m =
        (true, m.setData row kPenColorColumn (CellVal.color c))) ∧
      (∀ res,
        (editorEvent true true row kPenColorColumn EventType.mouseDblClick
          MouseButton.leftB res m).2 ≠ m → ∃ c, res = some c) := by
  intro m row
  refine ⟨?_, ?_, ?_⟩
  · simp [editorEvent, kPenColorColumn]
  · intro c
    simp [editorEvent, kPenColorColumn]
  · intro res h
    cases res with
    | none =>
      simp [editorEvent, kPenColorColumn] at h
    | some c =>
      exact ⟨c, rfl⟩

/-- C10 (witness): the cancelled dialog at a concrete model, and a write
implies a chosen color. -/
theorem C10_color_cancel_witness :
    editorEvent true true 0 kPenColorColumn EventType.mouseDblClick
      MouseButton.leftB none m0 = (true, m0) ∧
    ∃ c, (some "#123456" : Option String) = some c :=
  ⟨(C10_color_cancel m0 0).1,
   (C10_color_cancel m0 0).2.2 (some "#123456") (by decide)⟩

end Lab2
